import Mathlib

/-!
Shallow embedding of the dynamic error-wrapping core of the repository
(src/dynerror/src/lib.rs) and proofs about its rendering and context
attachment operations.

Modelling conventions:
- A call-site location (std::panic::Location) is the structure Loc, threaded
  explicitly as an argument to every operation that the source marks
  track_caller.
- A boxed dyn std::error::Error value is the inductive DynError.  Its two
  constructors record whether a downcast to the crate Error type succeeds:
  errorBox carries the fields of an Error value (downcast succeeds), native is
  any other implementor of the std Error trait, modelled by its Display
  rendering (msg) and its optional source.  The msg of a native value is, by
  definition, exactly the string its Display implementation produces.
- The crate type Error (msg, wraps, file, line, column) is the structure
  Error; its msg field (Box of dyn Display in the source) is modelled by the
  string that Display produces.
- Rust Result of T and Error is Except Error T; a generic failed input
  Result of T and E (E any std error) is Except DynError T.
-/

namespace Dynerror

/-- A source location, as captured by std::panic::Location::caller(). -/
structure Loc where
  file : String
  line : Nat
  column : Nat
deriving DecidableEq

/-- A boxed dyn std::error::Error value: either a value of the crate Error
type (errorBox, downcast_ref::<Error> succeeds, carrying the fields of that
Error), or a foreign native error (native), modelled by its Display rendering
and its optional source. -/
inductive DynError : Type where
  | native (msg : String) (source : Option DynError)
  | errorBox (msg : String) (wraps : Option DynError) (file : String) (line : Nat)
      (column : Nat)

/-- The crate Error struct: msg, wraps, file, line, column
(src/dynerror/src/lib.rs lines 12 to 18). -/
structure Error where
  msg : String
  wraps : Option DynError
  file : String
  line : Nat
  column : Nat

/-- Boxing an Error value as a dyn std::error::Error trait object. -/
def Error.toDyn (e : Error) : DynError :=
  .errorBox e.msg e.wraps e.file e.line e.column

/-- source() of a dyn error: for the crate Error it is the wraps field
(lib.rs lines 64 to 71); for a native error it is its own source. -/
def DynError.src : DynError → Option DynError
  | .native _ s => s
  | .errorBox _ w _ _ _ => w

/-- Display rendering of a dyn error in a non-alternate position.  For the
crate Error this is the chained Display implementation (lib.rs lines 108 to
121, non-alternate branch): msg, then if a cause exists a colon, a space and
the Display of the cause.  For a native error it is its Display string. -/
def DynError.display : DynError → String
  | .native m _ => m
  | .errorBox m none _ _ _ => m
  | .errorBox m (some w) _ _ _ => m ++ ": " ++ DynError.display w

/-- Display for Error (lib.rs lines 108 to 121).  The alternate flag selects
the concise mode (message only); otherwise the chained mode renders msg and,
when a cause exists, a colon, a space and the Display of the cause. -/
def Error.displayFmt (e : Error) (alternate : Bool) : String :=
  if alternate then e.msg
  else
    match e.wraps with
    | some err => e.msg ++ ": " ++ err.display
    | none => e.msg

/-- The cause-line loop body of the Debug implementation (lib.rs lines 94 to
102): each iteration writes, for a cause that downcasts to Error, the line
file:line:column, a colon, a space and the message, and otherwise the Display
of the native cause; writeln appends one newline after each line; the loop
then moves to the source of the current cause. -/
def DynError.traceLines : DynError → String
  | .native m none => m ++ "\n"
  | .native m (some s) => m ++ "\n" ++ DynError.traceLines s
  | .errorBox m none f l c =>
      f ++ ":" ++ toString l ++ ":" ++ toString c ++ ": " ++ m ++ "\n"
  | .errorBox m (some w) f l c =>
      f ++ ":" ++ toString l ++ ":" ++ toString c ++ ": " ++ m ++ "\n" ++
        DynError.traceLines w

/-- Debug (error return trace) rendering of Error (lib.rs lines 82 to 105):
the header, then, when the error wraps a cause, one newline, a blank line
ending as a second newline, the marker caused by: with a colon, one newline,
ONE tab, and then the cause lines produced by the loop. -/
def Error.debugFmt (e : Error) : String :=
  match e.wraps with
  | none =>
      "error:" ++ e.file ++ ":" ++ toString e.line ++ ":" ++ toString e.column ++
        ": " ++ e.msg
  | some w =>
      "error:" ++ e.file ++ ":" ++ toString e.line ++ ":" ++ toString e.column ++
        ": " ++ e.msg ++ "\n\ncaused by:\n\t" ++ w.traceLines

/-- Error::new (lib.rs lines 34 to 44): a leaf error with the given message
and the call site as provenance. -/
def Error.new (loc : Loc) (msg : String) : Error :=
  ⟨msg, none, loc.file, loc.line, loc.column⟩

/-- The fixed location of the recursive Error::from_error(e) call inside
from_error itself (lib.rs line 54); because from_error is track_caller, the
errors built by the recursion record this internal call site. -/
def internalFromLoc : Loc := ⟨"dynerror/src/lib.rs", 54, 21⟩

/-- Error::from_error (lib.rs lines 47 to 61): msg is err.to_string() (the
Display rendering of the argument), wraps maps the optional source through a
recursive from_error call made at the fixed internal call site, and the
provenance is the call site of this conversion.  There is no downcast check:
sources that are already Error values are re-converted like any other. -/
def Error.from_error (loc : Loc) : DynError → Error
  | .native m none =>
      ⟨m, none, loc.file, loc.line, loc.column⟩
  | .native m (some s) =>
      ⟨m, some (Error.toDyn (Error.from_error internalFromLoc s)), loc.file, loc.line,
        loc.column⟩
  | .errorBox m none f l c =>
      ⟨DynError.display (.errorBox m none f l c), none, loc.file, loc.line, loc.column⟩
  | .errorBox m (some w) f l c =>
      ⟨DynError.display (.errorBox m (some w) f l c),
        some (Error.toDyn (Error.from_error internalFromLoc w)), loc.file, loc.line,
        loc.column⟩

/-- Context::context for Option (lib.rs lines 145 to 161): Some passes
through; None becomes an Error with the context message, no cause, and the
call site as provenance. -/
def optionContext {T : Type} (loc : Loc) (c : String) : Option T → Except Error T
  | some t => .ok t
  | none => .error ⟨c, none, loc.file, loc.line, loc.column⟩

/-- Context::with_context for Option (lib.rs lines 163 to 180).  The FnOnce
closure is modelled as a state transformer f from sigma to String times
sigma, so that an invocation is visible as a state change: Some passes the
state through untouched (the closure is not invoked), None invokes f exactly
once to obtain the message. -/
def optionWithContext {T σ : Type} (loc : Loc) (f : σ → String × σ) (s : σ) :
    Option T → Except Error T × σ
  | some t => (.ok t, s)
  | none => (.error ⟨(f s).1, none, loc.file, loc.line, loc.column⟩, (f s).2)

/-- Context::result for Option (lib.rs lines 182 to 195): Some passes
through; None becomes an Error with the fixed fallback message, no cause, and
the call site as provenance. -/
def optionResult {T : Type} (loc : Loc) : Option T → Except Error T
  | some t => .ok t
  | none => .error ⟨"an optional value was None", none, loc.file, loc.line, loc.column⟩

/-- Context::context for Result (lib.rs lines 201 to 217): Ok passes through;
Err(e) becomes an Error with the context message, the native error e boxed
directly as its cause (no from_error normalization), and the call site as
provenance. -/
def resultContext {T : Type} (loc : Loc) (c : String) : Except DynError T → Except Error T
  | .ok t => .ok t
  | .error e => .error ⟨c, some e, loc.file, loc.line, loc.column⟩

/-- Context::with_context for Result (lib.rs lines 219 to 236), with the
FnOnce closure modelled as a state transformer as in optionWithContext: Ok
passes the state through untouched, Err invokes the closure exactly once. -/
def resultWithContext {T σ : Type} (loc : Loc) (f : σ → String × σ) (s : σ) :
    Except DynError T → Except Error T × σ
  | .ok t => (.ok t, s)
  | .error e => (.error ⟨(f s).1, some e, loc.file, loc.line, loc.column⟩, (f s).2)

/-- The fixed location of the Error::from_error(e) call inside
Context::result for Result (lib.rs line 247). -/
def internalResultLoc : Loc := ⟨"dynerror/src/lib.rs", 247, 25⟩

/-- Context::result for Result (lib.rs lines 238 to 255): Ok passes through;
Err(e) becomes an Error whose message is e.to_string(), whose cause is the
optional source of e normalized through from_error at the internal call site,
and whose provenance is the call site. -/
def resultResult {T : Type} (loc : Loc) : Except DynError T → Except Error T
  | .ok t => .ok t
  | .error e =>
      .error ⟨e.display, (e.src).map (fun s => Error.toDyn (Error.from_error internalResultLoc s)),
        loc.file, loc.line, loc.column⟩

/-- The list of dyn errors reached from d by repeatedly taking the source,
starting with d itself; the chain is finite because the data is inductive. -/
def DynError.chainList : DynError → List DynError
  | .native m none => [.native m none]
  | .native m (some s) => .native m (some s) :: DynError.chainList s
  | .errorBox m none f l c => [.errorBox m none f l c]
  | .errorBox m (some w) f l c => .errorBox m (some w) f l c :: DynError.chainList w

/-- Chain of an optional dyn error (the wraps field of an Error). -/
def chainOf : Option DynError → List DynError
  | none => []
  | some d => DynError.chainList d

/-- Whether a dyn error downcasts to the crate Error type. -/
def DynError.isError : DynError → Bool
  | .native _ _ => false
  | .errorBox _ _ _ _ _ => true

/-- The own message of a dyn error (for an Error value, its msg field; for a
native error, its Display rendering). -/
def DynError.msgOf : DynError → String
  | .native m _ => m
  | .errorBox m _ _ _ _ => m

/-- The provenance carried by a dyn error: an Error value carries its
file, line and column; a native error carries none. -/
def DynError.locOf : DynError → Option Loc
  | .native _ _ => none
  | .errorBox _ _ f l c => some ⟨f, l, c⟩

/-- The chained (default Display) rendering of the error inside a failed
Except, when there is one. -/
def errDisplayOf {T : Type} : Except Error T → Option String
  | .error e => some (e.displayFmt false)
  | .ok _ => none

/-- Unfolding of the chain of a dyn error: itself, then the chain of its
source. -/
theorem chainList_cons : (d : DynError) → DynError.chainList d = d :: chainOf d.src
  | .native _ none => rfl
  | .native _ (some _) => rfl
  | .errorBox _ none _ _ _ => rfl
  | .errorBox _ (some _) _ _ _ => rfl

/-- Unfolding of the chain of a boxed Error value: the box itself, then the
chain of the wrapped cause. -/
theorem chainList_toDyn (e : Error) :
    DynError.chainList (Error.toDyn e) = Error.toDyn e :: chainOf e.wraps := by
  cases e with
  | mk m w f l c => cases w <;> rfl

/-- The message of a from_error conversion is the Display rendering of its
argument (msg is err.to_string() in the source). -/
theorem from_error_msg (loc : Loc) : (d : DynError) →
    (Error.from_error loc d).msg = d.display
  | .native _ none => rfl
  | .native _ (some _) => rfl
  | .errorBox _ none _ _ _ => rfl
  | .errorBox _ (some _) _ _ _ => rfl

/-- A from_error conversion records exactly the location it was called at. -/
theorem locOf_toDyn_from_error (loc : Loc) : (d : DynError) →
    (Error.toDyn (Error.from_error loc d)).locOf = some loc
  | .native _ none => rfl
  | .native _ (some _) => rfl
  | .errorBox _ none _ _ _ => rfl
  | .errorBox _ (some _) _ _ _ => rfl

/-- The cause chain of a from_error conversion is the source chain of the
argument, with every element re-boxed through a from_error conversion made at
the fixed internal call site. -/
theorem fromError_chain (loc : Loc) : (d : DynError) →
    chainOf (Error.from_error loc d).wraps
      = (chainOf d.src).map (fun x => Error.toDyn (Error.from_error internalFromLoc x))
  | .native _ none => rfl
  | .native m (some s) => by
      show DynError.chainList (Error.toDyn (Error.from_error internalFromLoc s))
          = (DynError.chainList s).map
              (fun x => Error.toDyn (Error.from_error internalFromLoc x))
      rw [chainList_toDyn, fromError_chain internalFromLoc s, chainList_cons s]
      rfl
  | .errorBox _ none _ _ _ => rfl
  | .errorBox m (some w) f l c => by
      show DynError.chainList (Error.toDyn (Error.from_error internalFromLoc w))
          = (DynError.chainList w).map
              (fun x => Error.toDyn (Error.from_error internalFromLoc x))
      rw [chainList_toDyn, fromError_chain internalFromLoc w, chainList_cons w]
      rfl

/-- Mapping a constant function over a list yields a replicate of its
length. -/
theorem list_map_const_replicate {α β : Type} (b : β) : (l : List α) →
    l.map (fun _ => b) = List.replicate l.length b
  | [] => rfl
  | a :: t => by
      rw [List.map_cons, List.length_cons, List.replicate_succ]
      exact congrArg (List.cons b) (list_map_const_replicate b t)

/-- The all-quantifier over a constantly true predicate holds. -/
theorem list_all_const_true {α : Type} : (l : List α) → (l.all fun _ => true) = true
  | [] => rfl
  | _ :: t => list_all_const_true t

/-- all after map is all of the composition. -/
theorem list_all_comp {α β : Type} (f : α → β) (p : β → Bool) : (l : List α) →
    (l.map f).all p = l.all (fun x => p (f x))
  | [] => rfl
  | a :: t => by
      rw [List.map_cons, List.all_cons, List.all_cons]
      exact congrArg (fun b => p (f a) && b) (list_all_comp f p t)

/-- A concrete foreign error whose source is a value of the crate Error type
with its own recorded provenance orig.rs line 10 column 20. -/
def c3_foreign : DynError :=
  .native "outer" (some (.errorBox "inner" none "orig.rs" 10 20))

/-- Claim C3, counterexample: converting a foreign error whose source chain
contains an Error value recorded at orig.rs line 10 column 20 yields a
normalized chain whose single element carries the provenance of the internal
recursive from_error call site, not the preserved original provenance. -/
theorem c3_counterexample :
    (chainOf (Error.from_error ⟨"app.rs", 7, 9⟩ c3_foreign).wraps).map DynError.locOf
        = [some internalFromLoc]
    ∧ internalFromLoc ≠ (⟨"orig.rs", 10, 20⟩ : Loc) := by
  exact ⟨rfl, by decide⟩

/-- Claim C3, amended: from_error does not treat Error-typed values in the
foreign chain specially; every value in the normalized cause chain, Error or
not, carries the fixed provenance of the internal recursive from_error call
site rather than any previously recorded location. -/
theorem c3_from_error_replaces_provenance (loc : Loc) (d : DynError) :
    (chainOf (Error.from_error loc d).wraps).map DynError.locOf
      = List.replicate (chainOf d.src).length (some internalFromLoc) := by
  rw [fromError_chain, List.map_map]
  have h : (DynError.locOf ∘ fun x => Error.toDyn (Error.from_error internalFromLoc x))
      = fun _ => some internalFromLoc :=
    funext fun x => locOf_toDyn_from_error internalFromLoc x
  rw [h]
  exact list_map_const_replicate _ _

/-- Claim C4: from_error on a foreign error whose cause chain is native at
every level produces an Error whose message is the rendered message of the
foreign error and whose cause chain is homogeneous (every value downcasts to
Error), has the same depth as the foreign source chain, and carries at each
level the rendered message of the corresponding foreign value. -/
theorem c4_from_error_normalizes (loc : Loc) (d : DynError)
    (_hnative : (DynError.chainList d).all (fun x => !DynError.isError x) = true) :
    (Error.from_error loc d).msg = d.display
    ∧ (chainOf (Error.from_error loc d).wraps).all DynError.isError = true
    ∧ (chainOf (Error.from_error loc d).wraps).length = (chainOf d.src).length
    ∧ (chainOf (Error.from_error loc d).wraps).map DynError.msgOf
        = (chainOf d.src).map DynError.display := by
  refine ⟨from_error_msg loc d, ?_, ?_, ?_⟩
  · rw [fromError_chain, list_all_comp]
    have h : (fun x => DynError.isError (Error.toDyn (Error.from_error internalFromLoc x)))
        = fun _ => true :=
      funext fun x => rfl
    rw [h]
    exact list_all_const_true _
  · rw [fromError_chain, List.length_map]
  · rw [fromError_chain, List.map_map]
    have h : (DynError.msgOf ∘ fun x => Error.toDyn (Error.from_error internalFromLoc x))
        = DynError.display :=
      funext fun x => from_error_msg internalFromLoc x
    rw [h]

/-- A concrete foreign error with a native source chain of depth one. -/
def c4_d : DynError := .native "a" (some (.native "b" none))

/-- The location used by the witness of claim C4. -/
def c4_loc : Loc := ⟨"x.rs", 1, 1⟩

/-- Witness for claim C4 at a depth-one native chain. -/
theorem c4_witness :
    ((DynError.chainList c4_d).all (fun x => !DynError.isError x) = true)
    ∧ ((Error.from_error c4_loc c4_d).msg = c4_d.display
        ∧ (chainOf (Error.from_error c4_loc c4_d).wraps).all DynError.isError = true
        ∧ (chainOf (Error.from_error c4_loc c4_d).wraps).length = (chainOf c4_d.src).length
        ∧ (chainOf (Error.from_error c4_loc c4_d).wraps).map DynError.msgOf
            = (chainOf c4_d.src).map DynError.display) :=
  ⟨rfl, c4_from_error_normalizes c4_loc c4_d (by rfl)⟩

/-- Every run of the cause-line loop ends with the newline appended by
writeln after the last cause line. -/
theorem traceLines_newline : (d : DynError) → ∃ s, DynError.traceLines d = s ++ "\n"
  | .native m none => ⟨m, rfl⟩
  | .native m (some s) => by
      obtain ⟨t, ht⟩ := traceLines_newline s
      refine ⟨m ++ "\n" ++ t, ?_⟩
      show m ++ "\n" ++ DynError.traceLines s = m ++ "\n" ++ t ++ "\n"
      rw [ht, String.append_assoc (m ++ "\n") t "\n"]
  | .errorBox m none f l c =>
      ⟨f ++ ":" ++ toString l ++ ":" ++ toString c ++ ": " ++ m, rfl⟩
  | .errorBox m (some w) f l c => by
      obtain ⟨t, ht⟩ := traceLines_newline w
      refine ⟨f ++ ":" ++ toString l ++ ":" ++ toString c ++ ": " ++ m ++ "\n" ++ t, ?_⟩
      show f ++ ":" ++ toString l ++ ":" ++ toString c ++ ": " ++ m ++ "\n" ++
          DynError.traceLines w
          = f ++ ":" ++ toString l ++ ":" ++ toString c ++ ": " ++ m ++ "\n" ++ t ++ "\n"
      rw [ht, String.append_assoc
        (f ++ ":" ++ toString l ++ ":" ++ toString c ++ ": " ++ m ++ "\n") t "\n"]

/-- Claim C10: the Debug rendering of an Error with at least one cause ends
with a trailing newline (the last cause line is closed by writeln), while the
leaf rendering ends immediately after the message. -/
theorem c10_trailing_newline (m : String) (d : DynError) (f : String) (l c : Nat) :
    (∃ s, Error.debugFmt ⟨m, some d, f, l, c⟩ = s ++ "\n")
    ∧ Error.debugFmt ⟨m, none, f, l, c⟩
        = "error:" ++ f ++ ":" ++ toString l ++ ":" ++ toString c ++ ": " ++ m := by
  refine ⟨?_, rfl⟩
  obtain ⟨t, ht⟩ := traceLines_newline d
  refine ⟨"error:" ++ f ++ ":" ++ toString l ++ ":" ++ toString c ++ ": " ++ m ++
      "\n\ncaused by:\n\t" ++ t, ?_⟩
  show "error:" ++ f ++ ":" ++ toString l ++ ":" ++ toString c ++ ": " ++ m ++
      "\n\ncaused by:\n\t" ++ DynError.traceLines d
      = "error:" ++ f ++ ":" ++ toString l ++ ":" ++ toString c ++ ": " ++ m ++
        "\n\ncaused by:\n\t" ++ t ++ "\n"
  rw [ht, String.append_assoc
    ("error:" ++ f ++ ":" ++ toString l ++ ":" ++ toString c ++ ": " ++ m ++
      "\n\ncaused by:\n\t") t "\n"]

/-- A concrete Error wrapping two Error causes, used to evaluate the Debug
rendering of a chain with more than one cause. -/
def c1_err : Error :=
  ⟨"top", some (.errorBox "mid" (some (.errorBox "leaf" none "c.rs" 3 4)) "b.rs" 2 3),
    "a.rs", 1, 2⟩

/-- Claim C1 (code bug): the Debug rendering writes the single tab once,
right after the caused by: marker, so with two causes only the first cause
line carries a tab; the rendering therefore differs from the layout promised
by the Debug doc comment and the spec, in which every cause line is indented
by one tab. -/
theorem c1_code_bug_eval :
    Error.debugFmt c1_err
        = "error:a.rs:1:2: top\n\ncaused by:\n\tb.rs:2:3: mid\nc.rs:3:4: leaf\n"
    ∧ Error.debugFmt c1_err
        ≠ "error:a.rs:1:2: top\n\ncaused by:\n\tb.rs:2:3: mid\n\tc.rs:3:4: leaf\n" := by
  exact ⟨rfl, by decide⟩

/-- Claim C2, counterexample: context on a failed Result stores the native
error itself as the cause, not its from_error normalization, so the cause
chain of the produced Error contains a value that is not of the Error type. -/
theorem c2_counterexample :
    resultContext ⟨"app.rs", 3, 5⟩ "ctx"
        (Except.error (DynError.native "boom" none) : Except DynError Unit)
        = Except.error ⟨"ctx", some (DynError.native "boom" none), "app.rs", 3, 5⟩
    ∧ (chainOf (some (DynError.native "boom" none))).all DynError.isError = false
    ∧ (Error.toDyn (Error.from_error internalFromLoc (DynError.native "boom" none))).isError
        = true := by
  exact ⟨rfl, rfl, rfl⟩

/-- Claim C2, amended: context(msg) on a failed result builds an Error whose
message is msg, whose provenance is the call site, and whose cause is the
prior native error stored directly (type erased but not normalized, so the
cause chain may contain non-Error values); on an absent optional it builds an
Error with message msg and no cause; success values pass through unchanged. -/
theorem c2_context_amended {T : Type} (loc : Loc) (msg : String) (e : DynError) (t : T) :
    resultContext loc msg (Except.error e : Except DynError T)
        = Except.error ⟨msg, some e, loc.file, loc.line, loc.column⟩
    ∧ resultContext loc msg (Except.ok t : Except DynError T) = Except.ok t
    ∧ optionContext loc msg (none : Option T)
        = Except.error ⟨msg, none, loc.file, loc.line, loc.column⟩
    ∧ optionContext loc msg (some t) = Except.ok t :=
  ⟨rfl, rfl, rfl, rfl⟩

/-- Claim C5: with_context on a present optional or a successful result
returns the success value unchanged and leaves the closure state untouched
for every closure and every starting state, so the message closure is
invoked zero times; on the failure path the output is exactly the effect of
one invocation of the closure. -/
theorem c5_with_context_lazy {T σ : Type} (loc : Loc) (f : σ → String × σ) (s : σ) (t : T) :
    optionWithContext loc f s (some t) = (Except.ok t, s)
    ∧ resultWithContext loc f s (Except.ok t : Except DynError T) = (Except.ok t, s)
    ∧ optionWithContext loc f s (none : Option T)
        = (Except.error ⟨(f s).1, none, loc.file, loc.line, loc.column⟩, (f s).2)
    ∧ (∀ e : DynError, resultWithContext loc f s (Except.error e : Except DynError T)
        = (Except.error ⟨(f s).1, some e, loc.file, loc.line, loc.column⟩, (f s).2)) :=
  ⟨rfl, rfl, rfl, fun _ => rfl⟩

/-- Claim C6: a failed result whose native error renders as m, wrapped with
context reading file and wrapped again with context startup failed, renders
in chained (default Display) mode as exactly the string
startup failed: reading file: followed by m. -/
theorem c6_chained_two_layers (l1 l2 : Loc) (m : String) (s : Option DynError) :
    errDisplayOf
        (resultContext l2 "startup failed"
          ((resultContext l1 "reading file"
              (Except.error (DynError.native m s) : Except DynError Unit)).mapError
            Error.toDyn))
        = some ("startup failed: reading file: " ++ m) := by
  show some (("startup failed" ++ ": ") ++ (("reading file" ++ ": ") ++ m)) = _
  rw [← String.append_assoc]
  rfl

/-- Claim C7: the concise (alternate Display) rendering of any Error is
exactly its outermost message, whatever the cause chain is. -/
theorem c7_concise_mode (m : String) (w : Option DynError) (f : String) (l c : Nat) :
    Error.displayFmt ⟨m, w, f, l, c⟩ true = m :=
  rfl

/-- Claim C8: the Debug (trace) rendering of a leaf Error is exactly
error: followed by file, line, column, each separated by a colon, then a
colon, a space and the message, with nothing after it. -/
theorem c8_leaf_trace (m f : String) (l c : Nat) :
    Error.debugFmt ⟨m, none, f, l, c⟩
        = "error:" ++ f ++ ":" ++ toString l ++ ":" ++ toString c ++ ": " ++ m :=
  rfl

/-- Claim C9: result() on an absent optional builds an Error with no cause,
the fixed fallback message, and the call site as provenance; a present value
passes through unchanged. -/
theorem c9_option_result {T : Type} (loc : Loc) (t : T) :
    optionResult loc (none : Option T)
        = Except.error ⟨"an optional value was None", none, loc.file, loc.line, loc.column⟩
    ∧ optionResult loc (some t) = Except.ok t :=
  ⟨rfl, rfl⟩

end Dynerror
